import Mathlib

/-!
# Verification of the nostring-heir claim core

Shallow embedding of the heir-claim facade (`src/rust/src/api.rs`) and the
FFI surface (`src/rust/nostring-heir-ffi/src/lib.rs`).  Pure arithmetic and
control flow are translated directly; calls into external crates
(`serde_json`, `bitcoin`, `nostring_inherit`, `nostring_electrum`, `base64`,
`hex`) are modelled as explicit collaborator functions passed in, so that
ordering and data flow of the repository code itself can be proved.
Machine integers are modelled as `Nat`/`Int` with explicit two's-complement
wrapping where the Rust code can overflow.
-/

namespace NostringHeir

/-- Two's-complement wrap of a mathematical integer into `i64` range
(release-mode Rust wrapping semantics). -/
def wrap64 (x : Int) : Int := (x + 2 ^ 63) % 2 ^ 64 - 2 ^ 63

/-- `u64` value reinterpreted as `i64` (the Rust `as i64` cast). -/
def u64ToI64 (x : Nat) : Int := wrap64 x

/-- Wrap of a `Nat` into `u64` range. -/
def wrapU64 (n : Nat) : Nat := n % 2 ^ 64

/-- The four consensus networks distinguished by the code
(`bitcoin::Network` restricted to the tags the code maps). -/
inductive Network where
  | bitcoin
  | testnet
  | signet
  | regtest
deriving DecidableEq, Repr

/-- `parse_network` from `api.rs` (errors are plain strings there). -/
def parse_network : String → Except String Network
  | "mainnet" => .ok .bitcoin
  | "bitcoin" => .ok .bitcoin
  | "testnet" => .ok .testnet
  | "signet" => .ok .signet
  | "regtest" => .ok .regtest
  | other => .error ("Unknown network: " ++ other)

/-- The FFI error enumeration `HeirError` from `nostring-heir-ffi`. -/
inductive HeirError where
  | InvalidBackup (reason : String)
  | NotEligible (reason : String)
  | InvalidAddress (reason : String)
  | NetworkError (reason : String)
  | SigningError (reason : String)
deriving DecidableEq, Repr

/-- `parse_network` from the FFI crate (same table, FFI error type). -/
def ffi_parse_network : String → Except HeirError Network
  | "mainnet" => .ok .bitcoin
  | "bitcoin" => .ok .bitcoin
  | "testnet" => .ok .testnet
  | "signet" => .ok .signet
  | "regtest" => .ok .regtest
  | other => .error (.InvalidBackup ("Unknown network: " ++ other))

/-- JSON values as seen through the `serde_json::Value` accessors that the
FFI import uses (`get`, `as_u64`, `as_str`, `as_array`).  Numbers are modelled
as integers; the claims never touch non-integer numbers, and a non-integer
number makes `as_u64` fail just like the other mistyped cases. -/
inductive JVal where
  | null : JVal
  | bool (b : Bool) : JVal
  | num (n : Int) : JVal
  | str (s : String) : JVal
  | arr (xs : List JVal) : JVal
  | obj (fields : List (String × JVal)) : JVal

/-- `serde_json::Value::get` on an object (keys are unique in a serde map;
first match models it). -/
def JVal.get (v : JVal) (key : String) : Option JVal :=
  match v with
  | .obj fields => fields.lookup key
  | _ => none

/-- `serde_json::Value::as_u64`: defined exactly on non-negative integers
below `2^64`. -/
def JVal.as_u64 : JVal → Option Nat
  | .num n => if 0 ≤ n ∧ n < 2 ^ 64 then some n.toNat else none
  | _ => none

/-- `serde_json::Value::as_str`. -/
def JVal.as_str : JVal → Option String
  | .str s => some s
  | _ => none

/-- `serde_json::Value::as_array`. -/
def JVal.as_array : JVal → Option (List JVal)
  | .arr xs => some xs
  | _ => none

/-- The FFI `VaultInfo` record. -/
structure VaultInfoFFI where
  network : String
  vault_address : String
  timelock_blocks : Nat
  num_heirs : Nat
  threshold : Nat
  heir_label : Option String
  raw_json : String
deriving DecidableEq, Repr

/-- The FFI `ClaimEligibility` record. -/
structure ClaimEligibilityFFI where
  eligible : Bool
  blocks_remaining : Nat
  time_remaining : String
  current_height : Nat
deriving DecidableEq, Repr

/-- `import_vault_backup` from `nostring-heir-ffi/src/lib.rs`.
`parseJson` models `serde_json::from_str` (external crate) and `parseAddr`
models `bitcoin` address parsing of the `vault_address` string (external
crate); both report their own error text.  Everything else is translated
from the source: field lookups, the version gate, the required-field
checks, the `as u16`/`as u32` truncating casts and the `threshold`
default. -/
def ffi_import_vault_backup (parseJson : String → Except String JVal)
    (parseAddr : String → Except String Unit) (json : String) :
    Except HeirError VaultInfoFFI :=
  match parseJson json with
  | .error e => .error (.InvalidBackup ("Invalid JSON: " ++ e))
  | .ok backup =>
    match (backup.get "version").bind JVal.as_u64 with
    | none => .error (.InvalidBackup "Missing or invalid 'version' field")
    | some version =>
      if version ≠ 1 then
        .error (.InvalidBackup ("Unsupported backup version: " ++ toString version))
      else
        match (backup.get "network").bind JVal.as_str with
        | none => .error (.InvalidBackup "Missing 'network' field")
        | some network =>
          match (backup.get "vault_address").bind JVal.as_str with
          | none => .error (.InvalidBackup "Missing 'vault_address' field")
          | some vault_address =>
            match (backup.get "timelock_blocks").bind JVal.as_u64 with
            | none => .error (.InvalidBackup "Missing 'timelock_blocks' field")
            | some tl =>
              match (backup.get "heirs").bind JVal.as_array with
              | none => .error (.InvalidBackup "Missing 'heirs' array")
              | some heirs =>
                let threshold :=
                  (((backup.get "threshold").bind JVal.as_u64).getD heirs.length) % 2 ^ 32
                match parseAddr vault_address with
                | .error e =>
                    .error (.InvalidBackup ("Invalid vault address: " ++ e))
                | .ok _ =>
                    .ok { network := network
                          vault_address := vault_address
                          timelock_blocks := tl % 2 ^ 16
                          num_heirs := heirs.length % 2 ^ 32
                          threshold := threshold
                          heir_label := none
                          raw_json := json }

/-- The required-field discipline of the FFI import: `version`, `network`,
`vault_address`, `timelock_blocks` and `heirs` must be present with the
accessor type the code applies (`threshold` is optional). -/
def requiredFieldsPresent (v : JVal) : Bool :=
  ((v.get "version").bind JVal.as_u64).isSome &&
  ((v.get "network").bind JVal.as_str).isSome &&
  ((v.get "vault_address").bind JVal.as_str).isSome &&
  ((v.get "timelock_blocks").bind JVal.as_u64).isSome &&
  ((v.get "heirs").bind JVal.as_array).isSome

/-- `check_eligibility` from `nostring-heir-ffi/src/lib.rs`.  All `u32`
arithmetic: `saturating_sub` is `Nat` truncated subtraction; the `u16`
timelock widened to `u32` cannot wrap; `remaining * 10` is computed in
`u64` in the source and cannot wrap for `u32` remaining. -/
def ffi_check_eligibility (vault : VaultInfoFFI)
    (current_block_height vault_confirmed_height : Nat) : ClaimEligibilityFFI :=
  let blocks_needed := vault.timelock_blocks
  let blocks_since_confirm := current_block_height - vault_confirmed_height
  if blocks_needed ≤ blocks_since_confirm then
    { eligible := true
      blocks_remaining := 0
      time_remaining := "Ready to claim!"
      current_height := current_block_height }
  else
    let remaining := blocks_needed - blocks_since_confirm
    let minutes := remaining * 10
    let time_str :=
      if minutes > 1440 then "~" ++ toString (minutes / 1440) ++ " days"
      else if minutes > 60 then "~" ++ toString (minutes / 60) ++ " hours"
      else "~" ++ toString minutes ++ " minutes"
    { eligible := false
      blocks_remaining := remaining
      time_remaining := time_str
      current_height := current_block_height }

/-- One entry of `recovery_leaves` in a `VaultBackup`. -/
structure RecoveryLeaf where
  timelock : Nat
  script_hex : String
deriving DecidableEq, Repr

/-- One entry of `heirs` in a `VaultBackup` (`HeirBackupEntry`). -/
structure HeirBackupEntry where
  label : String
  xpub : String
  fingerprint : String
  derivation_path : String
  recovery_index : Nat
  npub : Option String
deriving DecidableEq, Repr

/-- The parsed backup document (`nostring_inherit::backup::VaultBackup`)
as the facade consumes it.  `timelock_blocks` is `u16` in the source; the
type-level bound appears as a hypothesis where it matters. -/
structure VaultBackup where
  version : Nat
  network : String
  owner_pubkey : String
  cosigner_pubkey : String
  chain_code : String
  address_index : Nat
  timelock_blocks : Nat
  threshold : Nat
  heirs : List HeirBackupEntry
  vault_address : String
  taproot_internal_key : Option String
  recovery_leaves : List RecoveryLeaf
  created_at : Option String
deriving DecidableEq, Repr

/-- A UTXO as reported by the Electrum collaborator
(`nostring_electrum`): outpoint, value in sats, script bytes, and
confirmation height (`0` for unconfirmed). -/
structure Utxo where
  txid : String
  vout : Nat
  value : Nat
  script_pubkey : List Nat
  height : Nat
deriving DecidableEq, Repr

/-- A decoded consensus transaction, reduced to the observations the
facade makes of it (input count and output values in sats). -/
structure Tx where
  num_inputs : Nat
  output_values : List Nat
deriving DecidableEq, Repr

/-- A PSBT input as inspected by `finalize_psbt`: the five
signature-bearing fields, payloads kept as opaque byte lists since the
code only tests presence / non-emptiness. -/
structure PsbtInput where
  final_script_witness : Option (List Nat)
  final_script_sig : Option (List Nat)
  tap_key_sig : Option (List Nat)
  tap_script_sigs : List (List Nat × List Nat)
  partial_sigs : List (List Nat × List Nat)
deriving DecidableEq, Repr

/-- The signedness test of `finalize_psbt` (the filter closure in
`api.rs`): signed iff any of the five fields is present / non-empty. -/
def PsbtInput.isSigned (i : PsbtInput) : Bool :=
  i.final_script_witness.isSome || i.final_script_sig.isSome ||
  i.tap_key_sig.isSome || !i.tap_script_sigs.isEmpty || !i.partial_sigs.isEmpty

/-- The external-crate collaborators of the facade, bundled: `serde_json`
backup parsing, the `nostring_inherit` address derivation (see
`VaultBackup.reconstruct`), the `bitcoin` address and consensus codecs
(parsed addresses are opaque handles), the `nostring_inherit` fee
estimator, the PSBT builder (composed with its binary serialization),
base64 in/out, PSBT deserialization, transaction extraction, txid
computation and consensus encoding. -/
structure Externals where
  parseBackup : String → Except String VaultBackup
  deriveAddress : String → String → String → Nat → List RecoveryLeaf → String → String
  parseAddrU : String → Except String Nat
  isValidFor : Nat → Network → Bool
  requireNetwork : Nat → Network → Except String Nat
  consensusDecode : List Nat → Except String Tx
  estimateVbytes : Nat → Nat → Nat → Nat
  buildHeirClaimPsbt : String → Nat → List ((String × Nat) × (Nat × List Nat)) → Nat → Nat → Except String (List Nat)
  b64encode : List Nat → String
  b64decode : String → Except String (List Nat)
  psbtDeserialize : List Nat → Except String (List PsbtInput)
  extractTx : List PsbtInput → Except String Tx
  txidOf : Tx → String
  txEncode : Tx → List Nat

/-- The chain-indexer collaborator (`nostring_electrum::ElectrumClient`):
client handles are opaque naturals. -/
structure Chain where
  connect : String → Network → Except String Nat
  getHeight : Nat → Except String Nat
  getUtxos : Nat → String → Except String (List Utxo)
  broadcast : Nat → Tx → Except String String

/-- One hex digit (the `hex` crate's alphabet, both cases). -/
def hexDigit? (c : Char) : Option Nat :=
  if '0' ≤ c ∧ c ≤ '9' then some (c.toNat - '0'.toNat)
  else if 'a' ≤ c ∧ c ≤ 'f' then some (c.toNat - 'a'.toNat + 10)
  else if 'A' ≤ c ∧ c ≤ 'F' then some (c.toNat - 'A'.toNat + 10)
  else none

/-- `hex::decode` on a character list: fails on odd length or a non-hex
character. -/
def hexDecodeList : List Char → Except String (List Nat)
  | [] => .ok []
  | [_] => .error "Odd number of digits"
  | c1 :: c2 :: rest =>
    match hexDigit? c1, hexDigit? c2 with
    | some hi, some lo =>
      match hexDecodeList rest with
      | .ok bs => .ok ((hi * 16 + lo) :: bs)
      | .error e => .error e
    | _, _ => .error "Invalid character"

/-- `hex::decode` on a string. -/
def hexDecode (s : String) : Except String (List Nat) :=
  hexDecodeList s.data

/-- `hex::encode` of one byte (lower-case alphabet). -/
def hexByte (b : Nat) : List Char :=
  let digit := fun n => if n < 10 then Char.ofNat ('0'.toNat + n)
                        else Char.ofNat ('a'.toNat + (n - 10))
  [digit (b / 16 % 16), digit (b % 16)]

/-- `hex::encode` of a byte list. -/
def hexEncode (bs : List Nat) : String :=
  ⟨bs.flatMap hexByte⟩

/-- Modelled from the spec: `VaultBackup::reconstruct` lives in the
external `nostring_inherit` crate, which is not under `src/`.  Per §4.3
of the specification it rebuilds the Taproot output deterministically
from the owner key, the cosigner key, the chain code, the address index
and the recovery leaves, derives the P2TR address for the backup's
network, and fails unless the derived address string-equals
`vault_address` (any mismatch is the vault-verification failure).  The
derivation itself is a black box, modelled by the `deriveAddress`
collaborator; the reconstructed vault is represented by its address,
which is all the facade reads from it (`vault.address`). -/
def VaultBackup.reconstruct (E : Externals) (b : VaultBackup) : Except String String :=
  let derived := E.deriveAddress b.owner_pubkey b.cosigner_pubkey b.chain_code
      b.address_index b.recovery_leaves b.network
  if derived = b.vault_address then .ok derived else .error "address mismatch"

/-- The facade `VaultInfo` record (`api.rs`). -/
structure VaultInfo where
  network : String
  vault_address : String
  timelock_blocks : Nat
  heir_count : Nat
  heir_labels : List String
  has_recovery_leaves : Bool
  address_verified : Bool
deriving DecidableEq, Repr

/-- The facade `ClaimEligibility` record.  `blocks_remaining` is `i64`
in the source and may be negative; the `f64` field `days_remaining` is
floating point and is not modelled. -/
structure ClaimEligibility where
  eligible : Bool
  blocks_remaining : Int
deriving DecidableEq, Repr

/-- `import_vault_backup` from `api.rs`: parse, reconstruct-and-verify,
then summarize. -/
def import_vault_backup (E : Externals) (json : String) : Except String VaultInfo :=
  match E.parseBackup json with
  | .error e => .error ("Invalid JSON: " ++ e)
  | .ok backup =>
    match backup.reconstruct E with
    | .error e => .error ("Vault verification failed: " ++ e)
    | .ok _ =>
      .ok { network := backup.network
            vault_address := backup.vault_address
            timelock_blocks := backup.timelock_blocks
            heir_count := backup.heirs.length
            heir_labels := backup.heirs.map (·.label)
            has_recovery_leaves := !backup.recovery_leaves.isEmpty
            address_verified := true }

/-- The eligibility arithmetic of the facade `check_eligibility`
(`api.rs` lines 61-70), after the backup has parsed: all in `i64`, with
the `u64` heights cast by `as i64`. -/
def check_eligibility_core (timelock_blocks current_height confirmation_height : Nat) :
    ClaimEligibility :=
  let timelock : Int := (timelock_blocks : Int)
  let blocks_since_confirm :=
    wrap64 (u64ToI64 current_height - u64ToI64 confirmation_height)
  let blocks_remaining := wrap64 (timelock - blocks_since_confirm)
  { eligible := blocks_remaining ≤ 0
    blocks_remaining := blocks_remaining }

/-- `check_eligibility` from `api.rs`. -/
def check_eligibility (E : Externals) (vault_json : String)
    (current_height confirmation_height : Nat) : Except String ClaimEligibility :=
  match E.parseBackup vault_json with
  | .error e => .error ("Invalid JSON: " ++ e)
  | .ok backup =>
    .ok (check_eligibility_core backup.timelock_blocks current_height confirmation_height)

/-- `validate_address` from `api.rs`: resolve the network tag, parse the
address (network-unchecked), then test it against the requested
network. -/
def validate_address (E : Externals) (address network : String) : Except String Bool :=
  match parse_network network with
  | .error e => .error e
  | .ok net =>
    match E.parseAddrU address with
    | .ok addr => .ok (E.isValidFor addr net)
    | .error e => .error ("Invalid address: " ++ e)

/-- Minimum of a list of naturals, `none` on the empty list (the Rust
iterator `min`). -/
def listMin? : List Nat → Option Nat
  | [] => none
  | x :: xs =>
    match listMin? xs with
    | none => some x
    | some m => some (min x m)

/-- The facade `VaultStatus` record (`days_remaining` is `f64` and is not
modelled). -/
structure VaultStatus where
  balance_sat : Nat
  utxo_count : Nat
  current_height : Nat
  confirmation_height : Nat
  eligible : Bool
  blocks_remaining : Int
deriving DecidableEq, Repr

/-- `fetch_vault_status` from `api.rs`: parse, reconstruct, connect,
read tip and UTXOs, take the earliest positive confirmation height
(falling back to the tip), and run the timelock arithmetic in `i64`. -/
def fetch_vault_status (E : Externals) (CH : Chain)
    (vault_json electrum_url : String) : Except String VaultStatus :=
  match E.parseBackup vault_json with
  | .error e => .error ("Invalid JSON: " ++ e)
  | .ok backup =>
    match backup.reconstruct E with
    | .error e => .error ("Vault reconstruction failed: " ++ e)
    | .ok vault_address =>
      match parse_network backup.network with
      | .error e => .error e
      | .ok network =>
        match CH.connect electrum_url network with
        | .error e => .error ("Electrum connection failed: " ++ e)
        | .ok client =>
          match CH.getHeight client with
          | .error e => .error ("Failed to get block height: " ++ e)
          | .ok current_height =>
            match CH.getUtxos client vault_address with
            | .error e => .error ("Failed to fetch UTXOs: " ++ e)
            | .ok utxos =>
              let balance_sat := wrapU64 (utxos.map (·.value)).sum
              let utxo_count := utxos.length
              let confirmation_height :=
                (listMin? ((utxos.filter (fun u => 0 < u.height)).map (·.height))).getD
                  current_height
              let timelock_blocks : Int := (backup.timelock_blocks : Int)
              let blocks_since :=
                wrap64 (u64ToI64 current_height - u64ToI64 confirmation_height)
              let blocks_remaining := wrap64 (timelock_blocks - blocks_since)
              .ok { balance_sat := balance_sat
                    utxo_count := utxo_count
                    current_height := current_height
                    confirmation_height := confirmation_height
                    eligible := blocks_remaining ≤ 0
                    blocks_remaining := blocks_remaining }

/-- The facade `ClaimPsbt` record. -/
structure ClaimPsbt where
  psbt_base64 : String
  total_input_sat : Nat
  fee_sat : Nat
  output_sat : Nat
  destination : String
  num_inputs : Nat
deriving DecidableEq, Repr

/-- The fee-ceiling message of `build_claim_psbt`. -/
def feeTooHighMsg : String := "Fee rate exceeds 500 sat/vB safety limit"

/-- `build_claim_psbt` from `api.rs`.  Order is the source's: parse →
reconstruct → network → fee ceiling → destination parse → destination
network check → connect → UTXO fetch → emptiness check → totals → fee
estimate → build → serialize/base64.  `(num_leaves as f64).log2().ceil()`
is `Nat.clog 2` (exact at every list length the `f64` computation
represents exactly; the claims never touch it). -/
def build_claim_psbt (E : Externals) (CH : Chain)
    (vault_json electrum_url destination_address : String)
    (heir_index fee_rate_sat_vb : Nat) : Except String ClaimPsbt :=
  match E.parseBackup vault_json with
  | .error e => .error ("Invalid JSON: " ++ e)
  | .ok backup =>
    match backup.reconstruct E with
    | .error e => .error ("Vault reconstruction failed: " ++ e)
    | .ok vault_address =>
      match parse_network backup.network with
      | .error e => .error e
      | .ok network =>
        if 500 < fee_rate_sat_vb then .error feeTooHighMsg
        else
          match E.parseAddrU destination_address with
          | .error e => .error ("Invalid destination address: " ++ e)
          | .ok destU =>
            match E.requireNetwork destU network with
            | .error e => .error ("Address network mismatch: " ++ e)
            | .ok dest_addr =>
              match CH.connect electrum_url network with
              | .error e => .error ("Electrum connection failed: " ++ e)
              | .ok client =>
                match CH.getUtxos client vault_address with
                | .error e => .error ("Failed to fetch UTXOs: " ++ e)
                | .ok utxos =>
                  if utxos.isEmpty then .error "No UTXOs found in vault"
                  else
                    let utxo_pairs :=
                      utxos.map (fun u => ((u.txid, u.vout), (u.value, u.script_pubkey)))
                    let total_input_sat := wrapU64 (utxo_pairs.map (·.2.1)).sum
                    let num_inputs := utxo_pairs.length
                    let num_leaves := max backup.recovery_leaves.length 1
                    let tree_depth := Nat.clog 2 num_leaves
                    let vbytes := E.estimateVbytes num_inputs 1 tree_depth
                    let fee_sat := wrapU64 (vbytes * fee_rate_sat_vb)
                    match E.buildHeirClaimPsbt vault_address heir_index utxo_pairs
                        dest_addr fee_sat with
                    | .error e => .error ("PSBT construction failed: " ++ e)
                    | .ok psbt_bytes =>
                      .ok { psbt_base64 := E.b64encode psbt_bytes
                            total_input_sat := total_input_sat
                            fee_sat := fee_sat
                            output_sat := total_input_sat - fee_sat
                            destination := destination_address
                            num_inputs := num_inputs }

/-- The facade `FinalizedTx` record. -/
structure FinalizedTx where
  tx_hex : String
  txid : String
  total_output_sat : Nat
  num_inputs : Nat
  num_outputs : Nat
deriving DecidableEq, Repr

/-- The unsigned-PSBT message of `finalize_psbt` (names the input
count). -/
def unsignedMsg (total_inputs : Nat) : String :=
  "This PSBT has not been signed yet. Please sign it with your wallet " ++
  "(Sparrow, hardware wallet, etc.) before importing it here. (" ++
  toString total_inputs ++ " input(s) need signing.)"

/-- The partially-signed message of `finalize_psbt` (names both
counts). -/
def partiallySignedMsg (signed_count total_inputs : Nat) : String :=
  "This PSBT is only partially signed: " ++ toString signed_count ++ " of " ++
  toString total_inputs ++ " inputs have signatures. All inputs must be " ++
  "signed before broadcasting. Please complete signing with your wallet."

/-- The extraction stage of `finalize_psbt` (everything after the
signature count checks pass). -/
def finalizeExtract (E : Externals) (inputs : List PsbtInput) :
    Except String FinalizedTx :=
  match E.extractTx inputs with
  | .error e =>
    .error ("Could not finalize the transaction even though all inputs appear " ++
      "signed. This usually means the signature format is wrong. Error: " ++ e)
  | .ok tx =>
    .ok { tx_hex := hexEncode (E.txEncode tx)
          txid := E.txidOf tx
          total_output_sat := wrapU64 tx.output_values.sum
          num_inputs := tx.num_inputs
          num_outputs := tx.output_values.length }

/-- `finalize_psbt` from `api.rs`: base64 decode, PSBT deserialize,
count signed inputs, gate on the count, then extract. -/
def finalize_psbt (E : Externals) (psbt_base64 : String) : Except String FinalizedTx :=
  match E.b64decode psbt_base64 with
  | .error e => .error ("Invalid base64: " ++ e)
  | .ok bytes =>
    match E.psbtDeserialize bytes with
    | .error e => .error ("Invalid PSBT: " ++ e)
    | .ok inputs =>
      let total_inputs := inputs.length
      let signed_count := (inputs.filter PsbtInput.isSigned).length
      if signed_count = 0 then .error (unsignedMsg total_inputs)
      else if signed_count < total_inputs then
        .error (partiallySignedMsg signed_count total_inputs)
      else finalizeExtract E inputs

/-- The facade `BroadcastResult` record. -/
structure BroadcastResult where
  txid : String
  success : Bool
deriving DecidableEq, Repr

/-- `broadcast_transaction` from `api.rs`: network tag, hex decode,
consensus decode — all before the Electrum client is constructed. -/
def broadcast_transaction (E : Externals) (CH : Chain)
    (tx_hex electrum_url network : String) : Except String BroadcastResult :=
  match parse_network network with
  | .error e => .error e
  | .ok net =>
    match hexDecode tx_hex with
    | .error e => .error ("Invalid hex: " ++ e)
    | .ok tx_bytes =>
      match E.consensusDecode tx_bytes with
      | .error e => .error ("Invalid transaction: " ++ e)
      | .ok tx =>
        match CH.connect electrum_url net with
        | .error e => .error ("Electrum connection failed: " ++ e)
        | .ok client =>
          match CH.broadcast client tx with
          | .error e => .error ("Broadcast failed: " ++ e)
          | .ok txid => .ok { txid := txid, success := true }

/-- `broadcast_transaction` from `nostring-heir-ffi/src/lib.rs`: note the
order — the Electrum client is constructed *before* the hex and
consensus decoding of the transaction. -/
def ffi_broadcast_transaction (E : Externals) (CH : Chain)
    (electrum_url network raw_tx_hex : String) : Except HeirError String :=
  match ffi_parse_network network with
  | .error e => .error e
  | .ok net =>
    match CH.connect electrum_url net with
    | .error e => .error (.NetworkError ("Connection failed: " ++ e))
    | .ok client =>
      match hexDecode raw_tx_hex with
      | .error e => .error (.SigningError ("Invalid hex: " ++ e))
      | .ok tx_bytes =>
        match E.consensusDecode tx_bytes with
        | .error e => .error (.SigningError ("Invalid transaction: " ++ e))
        | .ok tx =>
          match CH.broadcast client tx with
          | .error e => .error (.NetworkError ("Broadcast failed: " ++ e))
          | .ok txid => .ok txid

/-- An FFI import result is a rejection with the `InvalidBackup` error
variant. -/
def isInvalidBackup (r : Except HeirError VaultInfoFFI) : Prop :=
  ∃ s, r = .error (.InvalidBackup s)

/-! ## Concrete fixtures (used by witnesses and counterexamples) -/

/-- A concrete backup document, shaped like the repository's own test
fixture (`make_valid_backup_json`). -/
def sampleBackup : VaultBackup :=
  { version := 1
    network := "bitcoin"
    owner_pubkey := "02a1633cafcc01ebfb6d78e39f687a1f0995c62fc95f51ead10a02ee0be551b5dc"
    cosigner_pubkey := "03a1633cafcc01ebfb6d78e39f687a1f0995c62fc95f51ead10a02ee0be551b5dc"
    chain_code := "abab"
    address_index := 0
    timelock_blocks := 26280
    threshold := 1
    heirs := [⟨"Alice", "xpub661", "00000000", "m", 0, none⟩]
    vault_address := "bc1precorded"
    taproot_internal_key := none
    recovery_leaves := [⟨26280, "51"⟩]
    created_at := none }

/-- A trivial transaction value for collaborator stubs. -/
def trivialTx : Tx := ⟨0, []⟩

/-- A deterministic in-memory collaborator bundle whose every operation
succeeds with a fixed value (the test-double the spec's §9 polymorphism
note calls for). -/
def baseExternals : Externals :=
  { parseBackup := fun _ => .ok sampleBackup
    deriveAddress := fun _ _ _ _ _ _ => "bc1precorded"
    parseAddrU := fun _ => .ok 0
    isValidFor := fun _ _ => true
    requireNetwork := fun a _ => .ok a
    consensusDecode := fun _ => .ok trivialTx
    estimateVbytes := fun _ _ _ => 111
    buildHeirClaimPsbt := fun _ _ _ _ _ => .ok []
    b64encode := fun _ => ""
    b64decode := fun _ => .ok []
    psbtDeserialize := fun _ => .ok []
    extractTx := fun _ => .ok trivialTx
    txidOf := fun _ => ""
    txEncode := fun _ => [] }

/-- Collaborators under which reconstruction derives an address that
differs from the recorded one (a tampered backup). -/
def mismatchExternals : Externals :=
  { baseExternals with deriveAddress := fun _ _ _ _ _ _ => "bc1pderived" }

/-- Collaborators whose address parser rejects every string. -/
def errAddrExternals : Externals :=
  { baseExternals with parseAddrU := fun _ => .error "base58 error" }

/-- Collaborators whose address parser accepts but reports a network
mismatch. -/
def mismatchAddrExternals : Externals :=
  { baseExternals with isValidFor := fun _ _ => false }

/-- A PSBT input with no signature material at all. -/
def unsignedInput : PsbtInput := ⟨none, none, none, [], []⟩

/-- Collaborators that deserialize every PSBT to a single unsigned
input. -/
def unsignedPsbtExternals : Externals :=
  { baseExternals with psbtDeserialize := fun _ => .ok [unsignedInput] }

/-- An indexer whose every operation succeeds. -/
def baseChain : Chain :=
  { connect := fun _ _ => .ok 0
    getHeight := fun _ => .ok 150
    getUtxos := fun _ _ => .ok []
    broadcast := fun _ _ => .ok "txid" }

/-- An indexer whose connection attempt is refused. -/
def chainRefused : Chain :=
  { connect := fun _ _ => .error "connection refused"
    getHeight := fun _ => .error "no client"
    getUtxos := fun _ _ => .error "no client"
    broadcast := fun _ _ => .error "no client" }

/-- Two confirmed UTXOs at different heights (120 and 100). -/
def utxoA : Utxo := ⟨"aa", 0, 1000, [], 120⟩

/-- See `utxoA`. -/
def utxoB : Utxo := ⟨"bb", 1, 2000, [], 100⟩

/-- An unconfirmed UTXO (height `0`). -/
def utxoU : Utxo := ⟨"cc", 0, 500, [], 0⟩

/-- An indexer reporting tip 150 and the two confirmed UTXOs. -/
def chainTwoUtxos : Chain :=
  { baseChain with getUtxos := fun _ _ => .ok [utxoA, utxoB] }

/-- An indexer reporting tip 150 and one unconfirmed UTXO. -/
def chainUnconfirmed : Chain :=
  { baseChain with getUtxos := fun _ _ => .ok [utxoU] }

/-- A concrete FFI vault record with a 100-block timelock. -/
def sampleVaultFFI : VaultInfoFFI := ⟨"testnet", "tb1ptest", 100, 1, 1, none, "{}"⟩

/-- A concrete FFI vault record with a zero timelock (constructible: the
FFI import never enforces the spec's `timelock ≥ 1` invariant). -/
def zeroTimelockVault : VaultInfoFFI := ⟨"testnet", "tb1ptest", 0, 1, 1, none, "{}"⟩

/-- A backup JSON value whose `vault_address` has been mutated away from
anything its key material derives, all other fields well-formed. -/
def mutatedBackupJson : JVal :=
  JVal.obj
    [("version", .num 1), ("network", .str "testnet"),
     ("owner_pubkey", .str "02a1633cafcc01ebfb6d78e39f687a1f0995c62fc95f51ead10a02ee0be551b5dc"),
     ("cosigner_pubkey", .str "03a1633cafcc01ebfb6d78e39f687a1f0995c62fc95f51ead10a02ee0be551b5dc"),
     ("chain_code", .str "abab"), ("address_index", .num 0),
     ("timelock_blocks", .num 26280), ("threshold", .num 1),
     ("heirs", .arr [JVal.obj [("label", .str "Alice")]]),
     ("vault_address", .str "tb1pmutated")]

/-- A JSON parser producing the mutated backup for every input. -/
def pjMutated : String → Except String JVal := fun _ => .ok mutatedBackupJson

/-- A JSON parser producing a version-2 backup for every input. -/
def pjVersion2 : String → Except String JVal :=
  fun _ => .ok (JVal.obj [("version", JVal.num 2)])

/-- An address parser accepting every string. -/
def paOk : String → Except String Unit := fun _ => .ok ()

/-! ## Helper lemmas -/

theorem wrap64_eq_self {x : Int} (h1 : -(2 ^ 63) ≤ x) (h2 : x < 2 ^ 63) :
    wrap64 x = x := by
  unfold wrap64
  have hlo : (0 : Int) ≤ x + 2 ^ 63 := by omega
  have hhi : x + 2 ^ 63 < 2 ^ 64 := by omega
  rw [Int.emod_eq_of_lt hlo hhi]
  omega

theorem wrap64_zero : wrap64 0 = 0 :=
  wrap64_eq_self (by norm_num) (by norm_num)

theorem u64ToI64_eq_self {n : Nat} (h : n < 2 ^ 63) : u64ToI64 n = n := by
  unfold u64ToI64
  exact wrap64_eq_self (by omega) (by exact_mod_cast h)

theorem listMin?_isSome {xs : List Nat} (h : xs ≠ []) : (listMin? xs).isSome := by
  cases xs with
  | nil => exact absurd rfl h
  | cons x xs =>
    cases hx : listMin? xs with
    | none => simp [listMin?, hx]
    | some m => simp [listMin?, hx]

theorem listMin?_spec {xs : List Nat} {m : Nat} (h : listMin? xs = some m) :
    m ∈ xs ∧ ∀ y ∈ xs, m ≤ y := by
  induction xs generalizing m with
  | nil => simp [listMin?] at h
  | cons x xs ih =>
    rw [listMin?] at h
    cases hx : listMin? xs with
    | none =>
      rw [hx] at h
      injection h with h
      have hnil : xs = [] := by
        cases xs with
        | nil => rfl
        | cons y ys =>
          rw [listMin?] at hx
          cases hy : listMin? ys <;> rw [hy] at hx <;> simp at hx
      subst hnil
      subst h
      refine ⟨List.mem_singleton.mpr rfl, ?_⟩
      intro y hy
      rw [List.mem_singleton] at hy
      omega
    | some m' =>
      rw [hx] at h
      injection h with h
      obtain ⟨hmem, hle⟩ := ih hx
      subst h
      constructor
      · rcases le_total x m' with hc | hc
        · rw [min_eq_left hc]
          exact List.mem_cons_self x xs
        · rw [min_eq_right hc]
          exact List.mem_cons_of_mem x hmem
      · intro y hy
        rcases List.mem_cons.mp hy with rfl | hy
        · exact min_le_left _ _
        · exact le_trans (min_le_right _ _) (hle y hy)

/-- If the data of `m` does not begin with the data of `p`, then no
string with prefix `p` equals `m`. -/
theorem append_ne_of_take_ne (p e m : String)
    (h : p.data ≠ m.data.take p.data.length) : p ++ e ≠ m := by
  intro he
  apply h
  have hd : p.data ++ e.data = m.data := by
    rw [← he]; rfl
  rw [← hd, List.take_left]

/-- A string with prefix `p` is never the error payload `m` when `m`
does not begin with `p`. -/
theorem error_ne_of_pfx {α : Type} (p e m : String)
    (h : p.data ≠ m.data.take p.data.length) :
    (Except.error (p ++ e) : Except String α) ≠ .error m := by
  intro hc
  injection hc with hc
  exact append_ne_of_take_ne p e m h hc

/-! ## C1 -/

/-- C1 counterexample.  The claim says `blocks_remaining ==
max(0, k − (t − c))` for the facade `check_eligibility`; at timelock 10,
tip 100, confirmation 0 the facade returns `-90`, not `0`.  Moreover at
`u64` heights beyond `i64` range the wrapping `as i64` casts break even
the `eligible == (t − c ≥ k)` half: at timelock 5, tip 0, confirmation
`2^63` the code reports eligible although the true height difference is
hugely negative. -/
theorem c1_counterexample :
    ((check_eligibility_core 10 100 0).blocks_remaining ≠
        max 0 ((10 : Int) - ((100 : Int) - (0 : Int))))
    ∧ (check_eligibility_core 5 0 (2 ^ 63)).eligible = true
    ∧ ¬ ((0 : Int) - ((2 : Int) ^ 63) ≥ 5) := by
  refine ⟨by decide, by decide, by decide⟩

/-- C1 (amended): for heights within `i64`-safe range (all realistic
chain heights) and a `u16` timelock, the facade `check_eligibility`
satisfies `eligible == (t − c ≥ k)` but returns the *signed* value
`blocks_remaining == k − (t − c)` (negative once the timelock has
passed); it is the FFI `check_eligibility` that clamps,
`blocks_remaining == max(0, k − (t − c))`, for `c ≤ t`. -/
theorem c1_eligibility_arithmetic (k t c : Nat) (hk : k < 2 ^ 16)
    (ht : t < 2 ^ 62) (hc : c < 2 ^ 62) :
    ((check_eligibility_core k t c).eligible = decide ((t : Int) - c ≥ k)
      ∧ (check_eligibility_core k t c).blocks_remaining = (k : Int) - ((t : Int) - c))
    ∧ (∀ v : VaultInfoFFI, v.timelock_blocks = k → c ≤ t →
        (ffi_check_eligibility v t c).eligible = decide ((t : Int) - c ≥ k)
        ∧ ((ffi_check_eligibility v t c).blocks_remaining : Int)
            = max 0 ((k : Int) - ((t : Int) - c))) := by
  have ht' : t < 2 ^ 63 := by omega
  have hc' : c < 2 ^ 63 := by omega
  have hsince : wrap64 (u64ToI64 t - u64ToI64 c) = (t : Int) - (c : Int) := by
    rw [u64ToI64_eq_self ht', u64ToI64_eq_self hc']
    exact wrap64_eq_self (by omega) (by omega)
  have hrem : wrap64 ((k : Int) - ((t : Int) - (c : Int))) = (k : Int) - ((t : Int) - (c : Int)) :=
    wrap64_eq_self (by omega) (by omega)
  constructor
  · constructor
    · simp only [check_eligibility_core, hsince, hrem]
      rw [decide_eq_decide]
      omega
    · simp only [check_eligibility_core, hsince, hrem]
  · intro v hv hct
    simp only [ffi_check_eligibility, hv]
    by_cases hb : k ≤ t - c
    · rw [if_pos hb]
      refine ⟨(decide_eq_true (by omega)).symm, ?_⟩
      simp only []
      omega
    · rw [if_neg hb]
      refine ⟨(decide_eq_false (by omega)).symm, ?_⟩
      simp only []
      omega

/-- C1 witness: the amended statement at the spec's own boundary
example (timelock 100, tip 200/199, confirmation 100). -/
theorem c1_eligibility_arithmetic_witness :
    ((check_eligibility_core 100 200 100).eligible = decide ((200 : Int) - 100 ≥ 100)
      ∧ (check_eligibility_core 100 200 100).blocks_remaining = (100 : Int) - ((200 : Int) - 100))
    ∧ ((ffi_check_eligibility sampleVaultFFI 199 100).eligible = decide ((199 : Int) - 100 ≥ 100)
      ∧ ((ffi_check_eligibility sampleVaultFFI 199 100).blocks_remaining : Int)
          = max 0 ((100 : Int) - ((199 : Int) - 100))) := by
  refine ⟨(c1_eligibility_arithmetic 100 200 100 (by norm_num) (by norm_num) (by norm_num)).1,
    (c1_eligibility_arithmetic 100 199 100 (by norm_num) (by norm_num) (by norm_num)).2
      sampleVaultFFI rfl (by norm_num)⟩

/-! ## C2 -/

/-- C2 counterexample.  The claim covers both `import_vault_backup`
implementations, but the FFI one (`nostring-heir-ffi/src/lib.rs`) never
reconstructs the vault from key material: it accepts any backup whose
fields parse and whose `vault_address` string parses as an address, and
returns a `VaultInfo` — here for a backup whose `vault_address` has been
mutated away from anything derivable (no `VaultVerification` variant even
exists in `HeirError`). -/
theorem c2_counterexample :
    ffi_import_vault_backup pjMutated paOk "{}"
      = .ok ⟨"testnet", "tb1pmutated", 26280, 1, 1, none, "{}"⟩ := by
  rfl

/-- C2 (amended): the *facade* `import_vault_backup` (`api.rs`) fails
with the vault-verification error for every backup whose
`vault_address` differs from the address reconstructed from its key
material; the FFI `import_vault_backup` performs no such verification
and can return a `VaultInfo` for a mutated address. -/
theorem c2_vault_verification (E : Externals) (json : String) (b : VaultBackup)
    (hb : E.parseBackup json = .ok b)
    (hm : E.deriveAddress b.owner_pubkey b.cosigner_pubkey b.chain_code
        b.address_index b.recovery_leaves b.network ≠ b.vault_address) :
    ∃ e, import_vault_backup E json = .error ("Vault verification failed: " ++ e) := by
  refine ⟨"address mismatch", ?_⟩
  simp only [import_vault_backup, hb, VaultBackup.reconstruct, if_neg hm]

/-- C2 witness: the facade rejects the sample backup once the derived
address disagrees with the recorded one. -/
theorem c2_vault_verification_witness :
    ∃ e, import_vault_backup mismatchExternals "{}"
      = .error ("Vault verification failed: " ++ e) :=
  c2_vault_verification mismatchExternals "{}" sampleBackup rfl (by decide)

/-! ## C3 -/

/-- C3: for a PSBT that decodes to `n` inputs, `finalize_psbt` counts an
input as signed iff it has any of `final_script_witness`,
`final_script_sig`, `tap_key_sig`, non-empty `tap_script_sigs` or
non-empty `partial_sigs`; with zero signed it fails with the message
naming `n`, with `0 < signed < n` it fails with the message naming both
counts, and it reaches the extraction stage exactly when all `n` inputs
are signed (the error results hold for every extraction collaborator, so
extraction is attempted only then). -/
theorem c3_finalize_signature_gate (E : Externals) (s : String)
    (bytes : List Nat) (inputs : List PsbtInput)
    (hb : E.b64decode s = .ok bytes) (hd : E.psbtDeserialize bytes = .ok inputs) :
    (∀ i : PsbtInput, i.isSigned = true ↔
        (i.final_script_witness.isSome = true ∨ i.final_script_sig.isSome = true
          ∨ i.tap_key_sig.isSome = true ∨ i.tap_script_sigs ≠ [] ∨ i.partial_sigs ≠ []))
    ∧ ((inputs.filter PsbtInput.isSigned).length = 0 →
        finalize_psbt E s = .error (unsignedMsg inputs.length))
    ∧ (0 < (inputs.filter PsbtInput.isSigned).length →
        (inputs.filter PsbtInput.isSigned).length < inputs.length →
        finalize_psbt E s
          = .error (partiallySignedMsg (inputs.filter PsbtInput.isSigned).length inputs.length))
    ∧ (0 < inputs.length →
        (inputs.filter PsbtInput.isSigned).length = inputs.length →
        finalize_psbt E s = finalizeExtract E inputs) := by
  refine ⟨?_, ?_, ?_, ?_⟩
  · intro i
    simp [PsbtInput.isSigned, List.isEmpty_iff]
    tauto
  · intro h0
    simp only [finalize_psbt, hb, hd, if_pos h0]
  · intro hpos hlt
    simp only [finalize_psbt, hb, hd]
    rw [if_neg (by omega), if_pos hlt]
  · intro hn hall
    simp only [finalize_psbt, hb, hd]
    rw [if_neg (by omega), if_neg (by omega)]

/-- C3 witness: a one-input PSBT with no signature material fails with
the message naming its single input. -/
theorem c3_finalize_signature_gate_witness :
    finalize_psbt unsignedPsbtExternals "AAAA" = .error (unsignedMsg 1) :=
  (c3_finalize_signature_gate unsignedPsbtExternals "AAAA" [] [unsignedInput]
      rfl rfl).2.1 (by decide)

/-! ## C4 -/

/-- C4: for a backup that parses, reconstructs and names a known
network, `build_claim_psbt` fails with the `FeeTooHigh` message for
every fee rate above 500 — for every indexer collaborator and URL, since
the check precedes the connection — and never produces that error at
exactly 500, whatever the collaborators do. -/
theorem c4_fee_ceiling (E : Externals) (CH : Chain)
    (json url dest : String) (hi : Nat) (b : VaultBackup) (addr : String) (net : Network)
    (hb : E.parseBackup json = .ok b) (hr : b.reconstruct E = .ok addr)
    (hn : parse_network b.network = .ok net) :
    (∀ fee, 500 < fee →
        build_claim_psbt E CH json url dest hi fee = .error feeTooHighMsg)
    ∧ build_claim_psbt E CH json url dest hi 500 ≠ .error feeTooHighMsg := by
  constructor
  · intro fee hfee
    simp only [build_claim_psbt, hb, hr, hn, if_pos hfee]
  · simp only [build_claim_psbt, hb, hr, hn]
    rw [if_neg (by omega)]
    split
    · exact error_ne_of_pfx "Invalid destination address: " _ feeTooHighMsg (by decide)
    · split
      · exact error_ne_of_pfx "Address network mismatch: " _ feeTooHighMsg (by decide)
      · split
        · exact error_ne_of_pfx "Electrum connection failed: " _ feeTooHighMsg (by decide)
        · split
          · exact error_ne_of_pfx "Failed to fetch UTXOs: " _ feeTooHighMsg (by decide)
          · split
            · intro hcon
              injection hcon with hcon
              exact absurd hcon (by decide)
            · split
              · exact error_ne_of_pfx "PSBT construction failed: " _ feeTooHighMsg (by decide)
              · intro hcon
                exact Except.noConfusion hcon

/-- C4 witness: with the sample backup and an all-succeeding indexer,
fee rate 501 is rejected with the `FeeTooHigh` message and fee rate 500
is not. -/
theorem c4_fee_ceiling_witness :
    build_claim_psbt baseExternals baseChain "{}" "ssl://x" "bc1qdest" 0 501
      = .error feeTooHighMsg
    ∧ build_claim_psbt baseExternals baseChain "{}" "ssl://x" "bc1qdest" 0 500
      ≠ .error feeTooHighMsg := by
  have h := c4_fee_ceiling baseExternals baseChain "{}" "ssl://x" "bc1qdest" 0
    sampleBackup "bc1precorded" Network.bitcoin rfl rfl rfl
  exact ⟨h.1 501 (by norm_num), h.2⟩

/-! ## C5 -/

/-- C5: the FFI `import_vault_backup` answers `InvalidBackup` whenever
the JSON fails to parse, whenever any required field (`version`,
`network`, `vault_address`, `timelock_blocks`, `heirs`) is missing or of
the wrong type for its accessor, and whenever the version is a number
other than 1; and every accepted backup carries version exactly 1. -/
theorem c5_import_backup_validation (pj : String → Except String JVal)
    (pa : String → Except String Unit) (json : String) :
    (∀ e, pj json = .error e → isInvalidBackup (ffi_import_vault_backup pj pa json))
    ∧ (∀ v, pj json = .ok v → requiredFieldsPresent v = false →
        isInvalidBackup (ffi_import_vault_backup pj pa json))
    ∧ (∀ v k, pj json = .ok v → (v.get "version").bind JVal.as_u64 = some k → k ≠ 1 →
        isInvalidBackup (ffi_import_vault_backup pj pa json))
    ∧ (∀ info, ffi_import_vault_backup pj pa json = .ok info →
        ∃ v, pj json = .ok v ∧ (v.get "version").bind JVal.as_u64 = some 1) := by
  refine ⟨?_, ?_, ?_, ?_⟩
  · intro e he
    have hres : ffi_import_vault_backup pj pa json
        = .error (.InvalidBackup ("Invalid JSON: " ++ e)) := by
      simp only [ffi_import_vault_backup, he]
    exact ⟨_, hres⟩
  · intro v hv hreq
    cases hver : (v.get "version").bind JVal.as_u64 with
    | none =>
      have hres : ffi_import_vault_backup pj pa json
          = .error (.InvalidBackup "Missing or invalid 'version' field") := by
        simp only [ffi_import_vault_backup, hv, hver]
      exact ⟨_, hres⟩
    | some k =>
      by_cases hk : k = 1
      · cases hnet : (v.get "network").bind JVal.as_str with
        | none =>
          have hres : ffi_import_vault_backup pj pa json
              = .error (.InvalidBackup "Missing 'network' field") := by
            simp only [ffi_import_vault_backup, hv, hver, hnet, hk]
            rw [if_neg (by norm_num)]
          exact ⟨_, hres⟩
        | some network =>
          cases haddr : (v.get "vault_address").bind JVal.as_str with
          | none =>
            have hres : ffi_import_vault_backup pj pa json
                = .error (.InvalidBackup "Missing 'vault_address' field") := by
              simp only [ffi_import_vault_backup, hv, hver, hnet, haddr, hk]
              rw [if_neg (by norm_num)]
            exact ⟨_, hres⟩
          | some vault_address =>
            cases htl : (v.get "timelock_blocks").bind JVal.as_u64 with
            | none =>
              have hres : ffi_import_vault_backup pj pa json
                  = .error (.InvalidBackup "Missing 'timelock_blocks' field") := by
                simp only [ffi_import_vault_backup, hv, hver, hnet, haddr, htl, hk]
                rw [if_neg (by norm_num)]
              exact ⟨_, hres⟩
            | some tl =>
              cases hhe : (v.get "heirs").bind JVal.as_array with
              | none =>
                have hres : ffi_import_vault_backup pj pa json
                    = .error (.InvalidBackup "Missing 'heirs' array") := by
                  simp only [ffi_import_vault_backup, hv, hver, hnet, haddr, htl, hhe, hk]
                  rw [if_neg (by norm_num)]
                exact ⟨_, hres⟩
              | some heirs =>
                exfalso
                rw [requiredFieldsPresent, hver, hnet, haddr, htl, hhe] at hreq
                simp at hreq
      · have hres : ffi_import_vault_backup pj pa json
            = .error (.InvalidBackup ("Unsupported backup version: " ++ toString k)) := by
          simp only [ffi_import_vault_backup, hv, hver, if_pos hk]
        exact ⟨_, hres⟩
  · intro v k hv hver hk
    have hres : ffi_import_vault_backup pj pa json
        = .error (.InvalidBackup ("Unsupported backup version: " ++ toString k)) := by
      simp only [ffi_import_vault_backup, hv, hver, if_pos hk]
    exact ⟨_, hres⟩
  · intro info hok
    cases hpj : pj json with
    | error e =>
      rw [ffi_import_vault_backup, hpj] at hok
      exact Except.noConfusion hok
    | ok v =>
      cases hver : (v.get "version").bind JVal.as_u64 with
      | none =>
        rw [ffi_import_vault_backup, hpj] at hok
        simp only [hver] at hok
        exact Except.noConfusion hok
      | some k =>
        by_cases hk : k = 1
        · exact ⟨v, rfl, by rw [hver, hk]⟩
        · rw [ffi_import_vault_backup, hpj] at hok
          simp only [hver, if_pos hk] at hok
          exact Except.noConfusion hok

/-- C5 witness: a syntactically valid backup carrying version 2 is
rejected with `InvalidBackup`. -/
theorem c5_import_backup_validation_witness :
    isInvalidBackup (ffi_import_vault_backup pjVersion2 paOk "{}") :=
  (c5_import_backup_validation pjVersion2 paOk "{}").2.2.1
    (JVal.obj [("version", JVal.num 2)]) 2 rfl rfl (by norm_num)

/-! ## C6 -/

/-- C6 counterexample.  The claim covers both `broadcast_transaction`
implementations, but the FFI one constructs the Electrum client *before*
decoding the transaction hex: with the same undecodable hex `"zz"`, the
result depends on the indexer — a refused connection yields
`NetworkError`, not the decoding error, so validation does not precede
I/O there. -/
theorem c6_counterexample :
    ffi_broadcast_transaction baseExternals chainRefused "ssl://x" "testnet" "zz"
      = .error (.NetworkError ("Connection failed: " ++ "connection refused"))
    ∧ ffi_broadcast_transaction baseExternals baseChain "ssl://x" "testnet" "zz"
      = .error (.SigningError ("Invalid hex: " ++ "Invalid character")) := by
  exact ⟨rfl, rfl⟩

/-- C6 (amended): the *facade* `broadcast_transaction` (`api.rs`)
validates before any I/O — for a recognized network tag, a hex-decoding
or consensus-decoding failure produces that decoding error for every
indexer collaborator and URL; the FFI `broadcast_transaction` instead
connects first, so there a connection failure masks the decoding
error. -/
theorem c6_broadcast_validates_before_io (E : Externals) (CH : Chain)
    (tx_hex url netStr : String) (net : Network)
    (hn : parse_network netStr = .ok net) :
    (∀ e, hexDecode tx_hex = .error e →
        broadcast_transaction E CH tx_hex url netStr = .error ("Invalid hex: " ++ e))
    ∧ (∀ bs e2, hexDecode tx_hex = .ok bs → E.consensusDecode bs = .error e2 →
        broadcast_transaction E CH tx_hex url netStr
          = .error ("Invalid transaction: " ++ e2)) := by
  constructor
  · intro e he
    simp only [broadcast_transaction, hn, he]
  · intro bs e2 hbs he2
    simp only [broadcast_transaction, hn, hbs, he2]

/-- C6 witness: undecodable hex is rejected by the facade with the hex
error, under an all-succeeding indexer. -/
theorem c6_broadcast_validates_before_io_witness :
    broadcast_transaction baseExternals baseChain "zz" "ssl://x" "bitcoin"
      = .error ("Invalid hex: " ++ "Invalid character") :=
  (c6_broadcast_validates_before_io baseExternals baseChain "zz" "ssl://x" "bitcoin"
      Network.bitcoin rfl).1 "Invalid character" rfl

/-! ## C7 -/

/-- C7: for every address string and recognized network tag (`network`
is a tag in the spec's sense, §3), `validate_address` returns the
network-match boolean when the address parses — in particular plain
`false`, not an error, on a mismatch — and fails with the
`InvalidAddress` error exactly when the address fails to parse. -/
theorem c7_validate_address (E : Externals) (address tag : String) (net : Network)
    (hn : parse_network tag = .ok net) :
    (∀ a, E.parseAddrU address = .ok a →
        validate_address E address tag = .ok (E.isValidFor a net))
    ∧ (∀ e, E.parseAddrU address = .error e →
        validate_address E address tag = .error ("Invalid address: " ++ e)) := by
  constructor
  · intro a ha
    simp only [validate_address, hn, ha]
  · intro e he
    simp only [validate_address, hn, he]

/-- C7 witness: a parsed address on the wrong network gives `Ok false`;
an unparseable string gives the `InvalidAddress` error. -/
theorem c7_validate_address_witness :
    validate_address mismatchAddrExternals "bc1qw508d" "testnet" = .ok false
    ∧ validate_address errAddrExternals "notanaddress" "testnet"
      = .error ("Invalid address: " ++ "base58 error") := by
  refine ⟨?_, ?_⟩
  · exact (c7_validate_address mismatchAddrExternals "bc1qw508d" "testnet"
      Network.testnet rfl).1 0 rfl
  · exact (c7_validate_address errAddrExternals "notanaddress" "testnet"
      Network.testnet rfl).2 "base58 error" rfl

/-! ## C8 -/

/-- C8: when the vault has at least two confirmed UTXOs (and heights in
`i64`-safe range), `fetch_vault_status` evaluates eligibility and
`blocks_remaining` against the minimum of the confirmed confirmation
heights — a height that is among them and below them all. -/
theorem c8_earliest_confirmation (E : Externals) (CH : Chain) (json url : String)
    (b : VaultBackup) (addr : String) (net : Network) (client t : Nat) (utxos : List Utxo)
    (hb : E.parseBackup json = .ok b) (hr : b.reconstruct E = .ok addr)
    (hn : parse_network b.network = .ok net)
    (hcl : CH.connect url net = .ok client)
    (hh : CH.getHeight client = .ok t)
    (hu : CH.getUtxos client addr = .ok utxos)
    (hmany : 2 ≤ (utxos.filter (fun u => 0 < u.height)).length)
    (hk : b.timelock_blocks < 2 ^ 16) (ht : t < 2 ^ 62)
    (hbound : ∀ u ∈ utxos, u.height < 2 ^ 62) :
    ∃ m, (m ∈ (utxos.filter (fun u => 0 < u.height)).map (·.height)
          ∧ ∀ h ∈ (utxos.filter (fun u => 0 < u.height)).map (·.height), m ≤ h)
      ∧ ∃ s, fetch_vault_status E CH json url = .ok s
          ∧ s.confirmation_height = m
          ∧ s.eligible = decide ((t : Int) - m ≥ (b.timelock_blocks : Int))
          ∧ s.blocks_remaining = (b.timelock_blocks : Int) - ((t : Int) - m) := by
  have hne : (utxos.filter (fun u => 0 < u.height)).map (·.height) ≠ [] := by
    intro hnil
    have := congrArg List.length hnil
    rw [List.length_map, List.length_nil] at this
    omega
  obtain ⟨m, hm⟩ := Option.isSome_iff_exists.mp
    (listMin?_isSome hne)
  obtain ⟨hmem, hle⟩ := listMin?_spec hm
  have hmlt : m < 2 ^ 62 := by
    obtain ⟨u, hu1, hu2⟩ := List.mem_map.mp hmem
    have := hbound u (List.mem_of_mem_filter hu1)
    omega
  have hget : (listMin? ((utxos.filter (fun u => 0 < u.height)).map (·.height))).getD t
      = m := by
    rw [hm]
    rfl
  have hsince : wrap64 (u64ToI64 t - u64ToI64 m) = (t : Int) - (m : Int) := by
    rw [u64ToI64_eq_self (by omega), u64ToI64_eq_self (by omega)]
    exact wrap64_eq_self (by omega) (by omega)
  have hrem : wrap64 ((b.timelock_blocks : Int) - ((t : Int) - (m : Int)))
      = (b.timelock_blocks : Int) - ((t : Int) - (m : Int)) :=
    wrap64_eq_self (by omega) (by omega)
  refine ⟨m, ⟨hmem, hle⟩,
    ⟨{ balance_sat := wrapU64 (utxos.map (·.value)).sum
       utxo_count := utxos.length
       current_height := t
       confirmation_height := m
       eligible := decide ((t : Int) - m ≥ (b.timelock_blocks : Int))
       blocks_remaining := (b.timelock_blocks : Int) - ((t : Int) - m) }, ?_, rfl, rfl, rfl⟩⟩
  simp only [fetch_vault_status, hb, hr, hn, hcl, hh, hu, hget, hsince, hrem,
    Except.ok.injEq, VaultStatus.mk.injEq, true_and, and_true]
  rw [decide_eq_decide]
  omega

/-- C8 witness: with tip 150 and confirmed UTXOs at heights 120 and 100,
the status is computed against height 100. -/
theorem c8_earliest_confirmation_witness :
    ∃ m, (m ∈ (([utxoA, utxoB].filter (fun u => 0 < u.height)).map (·.height))
          ∧ ∀ h ∈ (([utxoA, utxoB].filter (fun u => 0 < u.height)).map (·.height)), m ≤ h)
      ∧ ∃ s, fetch_vault_status baseExternals chainTwoUtxos "{}" "ssl://x" = .ok s
          ∧ s.confirmation_height = m
          ∧ s.eligible = decide ((150 : Int) - m ≥ (sampleBackup.timelock_blocks : Int))
          ∧ s.blocks_remaining = (sampleBackup.timelock_blocks : Int) - ((150 : Int) - m) :=
  c8_earliest_confirmation baseExternals chainTwoUtxos "{}" "ssl://x"
    sampleBackup "bc1precorded" Network.bitcoin 0 150 [utxoA, utxoB]
    rfl rfl rfl rfl rfl rfl (by decide) (by decide) (by decide) (by decide)

/-! ## C9 -/

/-- C9 counterexample.  The claim asserts `eligible == false` for every
pair with `vault_confirmed_height > current_block_height`; but a
`VaultInfo` with `timelock_blocks = 0` (constructible — the FFI import
never enforces the spec's `timelock ≥ 1` invariant) is reported eligible
there, since the saturated difference `0` already meets a zero
timelock. -/
theorem c9_counterexample :
    (0 : Nat) < 1
    ∧ (ffi_check_eligibility zeroTimelockVault 0 1).eligible = true := by
  exact ⟨by norm_num, rfl⟩

/-- C9 (amended): in the FFI `check_eligibility` the height difference
saturates at zero, so for every `timelock ≥ 1` and
`vault_confirmed_height > current_block_height` the result is
`eligible = false` with `blocks_remaining` equal to the full timelock;
and for *all* inputs `blocks_remaining` never exceeds the timelock (the
`u32` subtraction is saturating, never underflowing). -/
theorem c9_saturating_eligibility (v : VaultInfoFFI) (t c : Nat)
    (hk : 1 ≤ v.timelock_blocks) (htc : t < c) :
    (ffi_check_eligibility v t c).eligible = false
    ∧ (ffi_check_eligibility v t c).blocks_remaining = v.timelock_blocks
    ∧ ∀ t' c' : Nat,
        (ffi_check_eligibility v t' c').blocks_remaining ≤ v.timelock_blocks := by
  have hsub : t - c = 0 := by omega
  refine ⟨?_, ?_, ?_⟩
  · simp only [ffi_check_eligibility, hsub]
    rw [if_neg (by omega)]
  · simp only [ffi_check_eligibility, hsub]
    rw [if_neg (by omega)]
    simp
  · intro t' c'
    simp only [ffi_check_eligibility]
    by_cases hb : v.timelock_blocks ≤ t' - c'
    · rw [if_pos hb]
      exact Nat.zero_le _
    · rw [if_neg hb]
      exact Nat.sub_le _ _

/-- C9 witness: the amended statement at timelock 100, tip 5,
confirmation 10. -/
theorem c9_saturating_eligibility_witness :
    (ffi_check_eligibility sampleVaultFFI 5 10).eligible = false
    ∧ (ffi_check_eligibility sampleVaultFFI 5 10).blocks_remaining = 100 := by
  have h := c9_saturating_eligibility sampleVaultFFI 5 10 (by decide) (by norm_num)
  exact ⟨h.1, h.2.1.trans rfl⟩

/-! ## C10 -/

/-- C10: if every UTXO reports height 0 (including the empty UTXO set),
`fetch_vault_status` substitutes the tip as confirmation height, so
`blocks_remaining` equals the full timelock and the vault is not
eligible for any timelock of at least 1. -/
theorem c10_no_confirmed_utxo (E : Externals) (CH : Chain) (json url : String)
    (b : VaultBackup) (addr : String) (net : Network) (client t : Nat) (utxos : List Utxo)
    (hb : E.parseBackup json = .ok b) (hr : b.reconstruct E = .ok addr)
    (hn : parse_network b.network = .ok net)
    (hcl : CH.connect url net = .ok client)
    (hh : CH.getHeight client = .ok t)
    (hu : CH.getUtxos client addr = .ok utxos)
    (hzero : ∀ u ∈ utxos, u.height = 0)
    (hk1 : 1 ≤ b.timelock_blocks) (hk : b.timelock_blocks < 2 ^ 16) :
    ∃ s, fetch_vault_status E CH json url = .ok s
      ∧ s.confirmation_height = t
      ∧ s.blocks_remaining = (b.timelock_blocks : Int)
      ∧ s.eligible = false := by
  have hfil : utxos.filter (fun u => 0 < u.height) = [] := by
    rw [List.filter_eq_nil_iff]
    intro u hu'
    simp [hzero u hu']
  have hrem : wrap64 ((b.timelock_blocks : Int) - wrap64 (u64ToI64 t - u64ToI64 t))
      = (b.timelock_blocks : Int) := by
    rw [sub_self, wrap64_zero, sub_zero]
    exact wrap64_eq_self (by omega) (by omega)
  refine ⟨{ balance_sat := wrapU64 (utxos.map (·.value)).sum
            utxo_count := utxos.length
            current_height := t
            confirmation_height := t
            eligible := false
            blocks_remaining := (b.timelock_blocks : Int) }, ?_, rfl, rfl, rfl⟩
  simp only [fetch_vault_status, hb, hr, hn, hcl, hh, hu, hfil, List.map_nil, listMin?,
    Option.getD_none, hrem, Except.ok.injEq, VaultStatus.mk.injEq, true_and, and_true]
  exact decide_eq_false (by omega)

/-- C10 witness: one unconfirmed UTXO at tip 150 with the sample
backup's 26280-block timelock. -/
theorem c10_no_confirmed_utxo_witness :
    ∃ s, fetch_vault_status baseExternals chainUnconfirmed "{}" "ssl://x" = .ok s
      ∧ s.confirmation_height = 150
      ∧ s.blocks_remaining = (sampleBackup.timelock_blocks : Int)
      ∧ s.eligible = false :=
  c10_no_confirmed_utxo baseExternals chainUnconfirmed "{}" "ssl://x"
    sampleBackup "bc1precorded" Network.bitcoin 0 150 [utxoU]
    rfl rfl rfl rfl rfl rfl (by decide) (by decide) (by decide)

end NostringHeir
